import Mathlib

/-!
Verification of the imaginepro Python SDK: a shallow embedding of its data
model (types.py), its parameter-normalization layer, transport adapter,
completion poller and operation facade, together with theorems settling the
specified properties. The SDK implementation module itself is not part of the
source tree given here (only its types, tests and a usage example are), so the
behavioral functions below are modelled from the specification text and
checked against the behavior the tests pin down. The request-parameter
structures embed the field layouts that types.py declares (the request-kind
records of the data model); the definition-time behavior of those
declarations under the CPython dataclass decorator is captured separately by
an explicit model of its field-layout rule.
-/

/-- A dynamic (JSON-like / Python-object-like) value: request bodies,
response bodies and attribute records are all values of this shape.
The `none` constructor is Python `None` / JSON `null`. -/
inductive PyValue where
  | none : PyValue
  | bool : Bool → PyValue
  | int : Int → PyValue
  | str : String → PyValue
  | list : List PyValue → PyValue
  | obj : List (String × PyValue) → PyValue

/-- Fields of an object value; non-objects have no fields. -/
def objFields : PyValue → List (String × PyValue)
  | PyValue.obj fs => fs
  | _ => []

/-- Is the value a structured record (an object with attributes)? -/
def isRecord : PyValue → Bool
  | PyValue.obj _ => true
  | _ => false

/-- Look up a field of a JSON object by key (first match). -/
def lookupField (v : PyValue) (key : String) : Option PyValue :=
  (objFields v).lookup key

/-- A present (non-null) value survives normalization; only `None` is dropped. -/
def keepField : PyValue → Bool
  | PyValue.none => false
  | _ => true

/-- Uppercase the first character of a word (used when joining name parts). -/
def capitalizeWord : List Char → List Char
  | [] => []
  | c :: cs => c.toUpper :: cs

/-- Modelled from the spec: the missing normalizer helper of the SDK module
rewrites an internal snake_case field name to the wire camelCase convention,
e.g. `message_id` becomes `messageId`: each underscore is removed and the
following character uppercased. -/
def snakeToCamelChars : List Char → List Char
  | [] => []
  | c :: rest =>
    if c = '_' then
      match rest with
      | [] => []
      | d :: rest2 => d.toUpper :: snakeToCamelChars rest2
    else c :: snakeToCamelChars rest

/-- Wire-name conversion on strings. -/
def snakeToCamel (s : String) : String :=
  String.mk (snakeToCamelChars s.data)

/-- Normalize the fields of a record: drop absent (null) fields, rename the
kept ones to the wire convention, preserving order. -/
def convertFields : List (String × PyValue) → List (String × PyValue)
  | [] => []
  | (k, v) :: rest =>
    if keepField v then (snakeToCamel k, v) :: convertFields rest
    else convertFields rest

/-- Modelled from the spec: the missing `_convert_params` method of the SDK
module. A structured record is turned into a mapping with wire-convention
field names and absent fields omitted; any non-record input is returned
unchanged. -/
def convertParams : PyValue → PyValue
  | PyValue.obj fields => PyValue.obj (convertFields fields)
  | v => v

/-- Common optional base parameters shared by every request kind
(types.py, `BaseParams`). -/
structure BaseParams where
  ref : Option String := Option.none
  webhook_override : Option String := Option.none
  timeout : Option Int := Option.none
  disable_cdn : Option Bool := Option.none

/-- Parameters of the `imagine` (Generate) operation (types.py,
`ImagineParams`): the prompt is the required kind-specific field. -/
structure ImagineParams extends BaseParams where
  prompt : String

/-- Parameters of the generic button-press operation (types.py,
`ButtonPressParams`): a message id and a button code are required, a mask and
a prompt are optional (used by the Vary Region action). -/
structure ButtonPressParams extends BaseParams where
  message_id : String
  button : String
  mask : Option String := Option.none
  prompt : Option String := Option.none

/-- Parameters of `upscale` (types.py, `UpscaleParams`). -/
structure UpscaleParams extends BaseParams where
  message_id : String
  index : Int

/-- Parameters of `variant` (types.py, `VariantParams`). -/
structure VariantParams extends BaseParams where
  message_id : String
  index : Int

/-- Parameters of `reroll` (types.py, `RerollParams`). -/
structure RerollParams extends BaseParams where
  message_id : String

/-- Parameters of `inpainting` (types.py, `InpaintingParams`): the mask is a
required field, the prompt an optional one. -/
structure InpaintingParams extends BaseParams where
  message_id : String
  mask : String
  prompt : Option String := Option.none

/-- A field of a Python dataclass declaration: its name and whether the
declaration supplies a default value. -/
structure FieldDecl where
  name : String
  has_default : Bool

/-- The rule CPython's dataclass decorator enforces while generating the
initializer of a class: a field without a default value may never follow a
field with one in the declared order (inherited fields first). A layout that
violates the rule raises TypeError at class-definition time, before any
instance of the class can exist. -/
def dataclassLayoutOk : List FieldDecl → Bool
  | [] => true
  | f :: rest =>
    if f.has_default then rest.all (fun g => g.has_default)
    else dataclassLayoutOk rest

/-- The declared field layout of `BaseParams` (types.py): four fields, each
with the default `None`. -/
def baseParamsFields : List FieldDecl :=
  [⟨"ref", true⟩, ⟨"webhook_override", true⟩, ⟨"timeout", true⟩,
   ⟨"disable_cdn", true⟩]

/-- The declared field layout of `ImagineParams` (types.py): the inherited
base fields first, then the non-default `prompt`. -/
def imagineParamsFields : List FieldDecl :=
  baseParamsFields ++ [⟨"prompt", false⟩]

/-- The declared field layout of `ButtonPressParams` (types.py). -/
def buttonPressParamsFields : List FieldDecl :=
  baseParamsFields ++
  [⟨"message_id", false⟩, ⟨"button", false⟩, ⟨"mask", true⟩,
   ⟨"prompt", true⟩]

/-- The declared field layout of `UpscaleParams` (types.py). -/
def upscaleParamsFields : List FieldDecl :=
  baseParamsFields ++ [⟨"message_id", false⟩, ⟨"index", false⟩]

/-- The declared field layout of `VariantParams` (types.py). -/
def variantParamsFields : List FieldDecl :=
  baseParamsFields ++ [⟨"message_id", false⟩, ⟨"index", false⟩]

/-- The declared field layout of `RerollParams` (types.py). -/
def rerollParamsFields : List FieldDecl :=
  baseParamsFields ++ [⟨"message_id", false⟩]

/-- The declared field layout of `InpaintingParams` (types.py): the inherited
base fields first, then non-default `message_id` and `mask` and the
defaulted `prompt`. -/
def inpaintingParamsFields : List FieldDecl :=
  baseParamsFields ++
  [⟨"message_id", false⟩, ⟨"mask", false⟩, ⟨"prompt", true⟩]

/-- Client configuration (types.py, `ImagineProSDKOptions`). -/
structure ImagineProSDKOptions where
  api_key : String
  base_url : String := "https://api.imaginepro.ai"
  default_timeout : Nat := 1800
  fetch_interval : Nat := 2

/-- Modelled from the spec: the missing constants module exposes a button-code
enumeration with at least REROLL and VARY_REGION as fixed wire-string
constants. The concrete wire strings are not given by the available source,
so representative distinct values are chosen; the theorems below depend only
on the constants themselves, never on their values. -/
def Button.REROLL : String := "reroll"

/-- Modelled from the spec: the fixed VARY_REGION button-code sentinel. -/
def Button.VARY_REGION : String := "varyRegion"

/-- Lift an optional string into a dynamic value (`None` when absent). -/
def pyOfOptStr : Option String → PyValue
  | Option.none => PyValue.none
  | some s => PyValue.str s

/-- Lift an optional integer into a dynamic value. -/
def pyOfOptInt : Option Int → PyValue
  | Option.none => PyValue.none
  | some n => PyValue.int n

/-- Lift an optional boolean into a dynamic value. -/
def pyOfOptBool : Option Bool → PyValue
  | Option.none => PyValue.none
  | some b => PyValue.bool b

/-- The attribute record of a `BaseParams` value, in declaration order, as
Python attribute introspection would see it. -/
def baseRecord (p : BaseParams) : List (String × PyValue) :=
  [("ref", pyOfOptStr p.ref),
   ("webhook_override", pyOfOptStr p.webhook_override),
   ("timeout", pyOfOptInt p.timeout),
   ("disable_cdn", pyOfOptBool p.disable_cdn)]

/-- The attribute record of an `ImagineParams` value (base fields first, as
with Python dataclass inheritance). -/
def imagineRecord (p : ImagineParams) : List (String × PyValue) :=
  baseRecord p.toBaseParams ++ [("prompt", PyValue.str p.prompt)]

/-- The attribute record of a `ButtonPressParams` value. -/
def buttonPressRecord (p : ButtonPressParams) : List (String × PyValue) :=
  baseRecord p.toBaseParams ++
  [("message_id", PyValue.str p.message_id),
   ("button", PyValue.str p.button),
   ("mask", pyOfOptStr p.mask),
   ("prompt", pyOfOptStr p.prompt)]

/-- Modelled from the spec: the wire body the missing `press_button` method
posts is the normalized parameter record. -/
def buttonPressBody (p : ButtonPressParams) : PyValue :=
  convertParams (PyValue.obj (buttonPressRecord p))

/-- Modelled from the spec: the missing `upscale` method delegates to
`press_button` with the button code synthesized as `"U" + index`, preserving
the message id and the base parameters. This function is the
`ButtonPressParams` value handed to `press_button`. -/
def upscale (p : UpscaleParams) : ButtonPressParams :=
  { toBaseParams := p.toBaseParams
    message_id := p.message_id
    button := "U" ++ toString p.index
    mask := Option.none
    prompt := Option.none }

/-- Modelled from the spec: the missing `variant` method delegates to
`press_button` with the button code synthesized as `"V" + index`. -/
def variant (p : VariantParams) : ButtonPressParams :=
  { toBaseParams := p.toBaseParams
    message_id := p.message_id
    button := "V" ++ toString p.index
    mask := Option.none
    prompt := Option.none }

/-- Modelled from the spec: the missing `reroll` method delegates to
`press_button` with the button code fixed to the REROLL sentinel. -/
def reroll (p : RerollParams) : ButtonPressParams :=
  { toBaseParams := p.toBaseParams
    message_id := p.message_id
    button := Button.REROLL
    mask := Option.none
    prompt := Option.none }

/-- Modelled from the spec: the missing `inpainting` method delegates to
`press_button` with the button code fixed to the VARY_REGION sentinel,
carrying the required mask and the optional prompt. -/
def inpainting (p : InpaintingParams) : ButtonPressParams :=
  { toBaseParams := p.toBaseParams
    message_id := p.message_id
    button := Button.VARY_REGION
    mask := some p.mask
    prompt := p.prompt }

/-- Modelled from the spec: the missing `_extract_base_params` method maps
each of the four common base fields to its wire-named equivalent, only when
present. -/
def extractBaseParams (p : BaseParams) : List (String × PyValue) :=
  (match p.ref with
   | some r => [("ref", PyValue.str r)]
   | Option.none => []) ++
  (match p.webhook_override with
   | some w => [("webhookOverride", PyValue.str w)]
   | Option.none => []) ++
  (match p.timeout with
   | some t => [("timeout", PyValue.int t)]
   | Option.none => []) ++
  (match p.disable_cdn with
   | some d => [("disableCdn", PyValue.bool d)]
   | Option.none => [])

/-- The error taxonomy of the library, modelled from the spec: a transport
error (non-success HTTP response) and a timeout error (poll deadline
exceeded, carrying the message id and the elapsed duration) are distinct
kinds. -/
inductive SdkError where
  | transport : String → SdkError
  | timeout : String → Nat → SdkError

/-- An outgoing HTTP request as the transport adapter builds it. -/
structure HttpRequest where
  method : String
  url : String
  headers : List (String × String)
  body : Option PyValue

/-- An HTTP response as the transport adapter observes it: a success flag,
the parsed JSON body, and the HTTP reason phrase. -/
structure HttpResponse where
  ok : Bool
  json : PyValue
  reason : String

/-- Modelled from the spec: every request the missing transport layer issues
carries the bearer-token authorization header. -/
def buildHeaders (opts : ImagineProSDKOptions) : List (String × String) :=
  [("Authorization", "Bearer " ++ opts.api_key),
   ("Content-Type", "application/json")]

/-- Modelled from the spec: the POST request built by the missing
`_post_request` method, addressed relative to the configured base URL. -/
def postRequestOf (opts : ImagineProSDKOptions) (path : String)
    (body : PyValue) : HttpRequest :=
  { method := "POST"
    url := opts.base_url ++ path
    headers := buildHeaders opts
    body := some body }

/-- Modelled from the spec: the GET request built by the missing
`_get_request` method. -/
def getRequestOf (opts : ImagineProSDKOptions) (path : String) : HttpRequest :=
  { method := "GET"
    url := opts.base_url ++ path
    headers := buildHeaders opts
    body := Option.none }

/-- Modelled from the spec: the error-message resolution of the missing
transport layer on a non-success response, in order: the server-provided
`error` field of the JSON body when present, else the HTTP reason phrase,
else a generic failure message. -/
def errorMessage (resp : HttpResponse) : String :=
  match lookupField resp.json "error" with
  | some (PyValue.str e) => e
  | _ => if resp.reason = "" then "Request failed" else resp.reason

/-- Modelled from the spec: how the missing transport layer turns a response
into a result. On success the parsed JSON body is returned verbatim, with no
schema validation; otherwise a transport error with the resolved message. -/
def handleResponse (resp : HttpResponse) : Except SdkError PyValue :=
  if resp.ok then Except.ok resp.json
  else Except.error (SdkError.transport (errorMessage resp))

/-- Modelled from the spec: the request issued by the missing `imagine`
method, posting the normalized Generate parameters to the imagine route. -/
def imagineRequest (opts : ImagineProSDKOptions) (p : ImagineParams) :
    HttpRequest :=
  postRequestOf opts "/api/v1/nova/imagine"
    (convertParams (PyValue.obj (imagineRecord p)))

/-- Modelled from the spec: the request issued by the missing
`fetch_message_once` method, a GET on the message-fetch route. -/
def fetchOnceRequest (opts : ImagineProSDKOptions) (mid : String) :
    HttpRequest :=
  getRequestOf opts ("/api/v1/message/fetch/" ++ mid)

/-- A fetched message snapshot is terminal when its reported status is
`DONE` or `FAIL`. -/
def isTerminalResp (v : PyValue) : Bool :=
  match lookupField v "status" with
  | some (PyValue.str s) => s == "DONE" || s == "FAIL"
  | _ => false

/-- Modelled from the spec: the effective poll timeout is the explicit
argument when given, else the configured default. -/
def effectiveTimeout (opts : ImagineProSDKOptions) (t : Option Nat) : Nat :=
  t.getD opts.default_timeout

/-- Modelled from the spec: the poll loop of the missing `fetch_message`
method, run against an explicit trace. `results` lists the successive
single-fetch results; `times` lists the successive clock readings taken at
the deadline checks; `start` is the recorded start time. Each iteration
issues one single-fetch, returns its result at once when terminal, otherwise
checks the deadline (failing with a timeout error carrying the message id and
the elapsed duration), otherwise suspends for one interval and repeats. The
verdict carries the result together with the number of single-fetch calls and
of interval suspensions performed; `Option.none` means the finite trace ended
before the loop reached a verdict. -/
def fetchMessagePoll (timeoutEff : Nat) (mid : String) (start : Nat) :
    List PyValue → List Nat → Option (Except SdkError (PyValue × Nat × Nat))
  | [], _ => Option.none
  | r :: rs, times =>
    if isTerminalResp r then some (Except.ok (r, 1, 0))
    else
      match times with
      | [] => Option.none
      | t :: ts =>
        if timeoutEff ≤ t - start then
          some (Except.error (SdkError.timeout mid (t - start)))
        else
          match fetchMessagePoll timeoutEff mid start rs ts with
          | some (Except.ok (res, f, sl)) => some (Except.ok (res, f + 1, sl + 1))
          | other => other

/-- Modelled from the spec: the missing `fetch_message` method resolves the
effective timeout then runs the poll loop. -/
def fetch_message (opts : ImagineProSDKOptions) (mid : String)
    (timeoutArg : Option Nat) (results : List PyValue) (times : List Nat)
    (start : Nat) : Option (Except SdkError (PyValue × Nat × Nat)) :=
  fetchMessagePoll (effectiveTimeout opts timeoutArg) mid start results times

/-- The client configuration the test suite uses. -/
def testOpts : ImagineProSDKOptions :=
  { api_key := "test_api_key"
    base_url := "https://api.example.com"
    default_timeout := 30
    fetch_interval := 1 }

/-- An in-progress message snapshot, as in the test suite. -/
def processingResp : PyValue :=
  PyValue.obj [("id", PyValue.str "test_message_id"),
               ("status", PyValue.str "PROCESSING"),
               ("progress", PyValue.int 50)]

/-- A completed message snapshot, as in the test suite. -/
def doneResp : PyValue :=
  PyValue.obj [("id", PyValue.str "test_message_id"),
               ("status", PyValue.str "DONE"),
               ("images", PyValue.list [PyValue.str "image1.png"])]

/-- A failed message snapshot: a normal terminal message state with an
`error` field populated. -/
def failResp : PyValue :=
  PyValue.obj [("id", PyValue.str "test_message_id"),
               ("status", PyValue.str "FAIL"),
               ("error", PyValue.str "generation failed")]

theorem mem_convertFields {fields : List (String × PyValue)} {k : String}
    {v : PyValue} (hmem : (k, v) ∈ fields) (hkeep : keepField v = true) :
    (snakeToCamel k, v) ∈ convertFields fields := by
  induction fields with
  | nil => cases hmem
  | cons kv rest ih =>
    obtain ⟨k0, v0⟩ := kv
    rcases List.mem_cons.mp hmem with h | h
    · cases h
      simp [convertFields, hkeep]
    · by_cases hk : keepField v0 = true
      · simp [convertFields, hk]
        exact Or.inr (ih h)
      · simp [convertFields, hk]
        exact ih h

/-- C3: parameter normalization rewrites each field name from snake_case to
the wire camelCase convention, omits every absent (null) field, keeps every
falsy-but-present field (empty string, zero, false), and returns any
non-record input unchanged. -/
theorem convert_params_spec :
    (∀ fields : List (String × PyValue),
      convertParams (PyValue.obj fields)
        = PyValue.obj (fields.filterMap fun kv =>
            match kv.2 with
            | PyValue.none => Option.none
            | v => some (snakeToCamel kv.1, v)))
    ∧ (∀ s, convertParams (PyValue.str s) = PyValue.str s)
    ∧ (∀ n, convertParams (PyValue.int n) = PyValue.int n)
    ∧ (∀ b, convertParams (PyValue.bool b) = PyValue.bool b)
    ∧ snakeToCamel "message_id" = "messageId"
    ∧ snakeToCamel "snake_case_param" = "snakeCaseParam"
    ∧ convertParams (PyValue.obj
        [("empty_str", PyValue.str ""), ("zero", PyValue.int 0),
         ("flag", PyValue.bool false), ("absent", PyValue.none)])
      = PyValue.obj
        [("emptyStr", PyValue.str ""), ("zero", PyValue.int 0),
         ("flag", PyValue.bool false)] := by
  refine ⟨?_, fun s => rfl, fun n => rfl, fun b => rfl, by decide, by decide, rfl⟩
  intro fields
  simp only [convertParams]
  congr 1
  induction fields with
  | nil => rfl
  | cons kv rest ih =>
    obtain ⟨k, v⟩ := kv
    cases v <;> simp [convertFields, keepField, List.filterMap_cons, ih]

/-- C4: base-parameter extraction maps each of the four common base fields to
its wire-named equivalent exactly when that field is present, yields an empty
mapping when all four are absent, and a record with only `timeout = 60` set
yields exactly the mapping with the single entry `("timeout", 60)`. -/
theorem extract_base_params_spec (p : BaseParams) :
    ((∃ v, ("ref", v) ∈ extractBaseParams p) ↔ p.ref ≠ Option.none)
    ∧ (∀ r, p.ref = some r → ("ref", PyValue.str r) ∈ extractBaseParams p)
    ∧ ((∃ v, ("webhookOverride", v) ∈ extractBaseParams p) ↔
        p.webhook_override ≠ Option.none)
    ∧ (∀ w, p.webhook_override = some w →
        ("webhookOverride", PyValue.str w) ∈ extractBaseParams p)
    ∧ ((∃ v, ("timeout", v) ∈ extractBaseParams p) ↔ p.timeout ≠ Option.none)
    ∧ (∀ t, p.timeout = some t →
        ("timeout", PyValue.int t) ∈ extractBaseParams p)
    ∧ ((∃ v, ("disableCdn", v) ∈ extractBaseParams p) ↔
        p.disable_cdn ≠ Option.none)
    ∧ (∀ d, p.disable_cdn = some d →
        ("disableCdn", PyValue.bool d) ∈ extractBaseParams p)
    ∧ (p.ref = Option.none → p.webhook_override = Option.none →
        p.timeout = Option.none → p.disable_cdn = Option.none →
        extractBaseParams p = [])
    ∧ (p.ref = Option.none → p.webhook_override = Option.none →
        p.timeout = some 60 → p.disable_cdn = Option.none →
        extractBaseParams p = [("timeout", PyValue.int 60)]) := by
  obtain ⟨r, w, t, d⟩ := p
  cases r <;> cases w <;> cases t <;> cases d <;>
    simp [extractBaseParams]

/-- C4 witness: a record with only `timeout = 60` set yields exactly the
mapping with the single entry `("timeout", 60)`. -/
theorem extract_base_params_spec_witness :
    extractBaseParams
      (BaseParams.mk Option.none Option.none (some 60) Option.none)
      = [("timeout", PyValue.int 60)] :=
  (extract_base_params_spec
      (BaseParams.mk Option.none Option.none (some 60) Option.none)
    ).2.2.2.2.2.2.2.2.2 rfl rfl rfl rfl

/-- C6: `upscale` delegates to `press_button` with the button code `"U"`
followed by the index, `variant` with `"V"` followed by the index, both
preserving the message id; in particular index 1 upscales with `"U1"` and
index 2 gives variant `"V2"`. -/
theorem upscale_variant_button (b : BaseParams) (m : String) (i : Int) :
    (upscale (UpscaleParams.mk b m i)).button = "U" ++ toString i
    ∧ (upscale (UpscaleParams.mk b m i)).message_id = m
    ∧ (variant (VariantParams.mk b m i)).button = "V" ++ toString i
    ∧ (variant (VariantParams.mk b m i)).message_id = m
    ∧ (upscale (UpscaleParams.mk b "m1" 1)).button = "U1"
    ∧ (variant (VariantParams.mk b "m1" 2)).button = "V2" := by
  refine ⟨rfl, rfl, rfl, rfl, ?_, ?_⟩
  · show "U" ++ toString (1 : Int) = "U1"
    decide
  · show "V" ++ toString (2 : Int) = "V2"
    decide

/-- C7: `reroll` delegates to `press_button` with the fixed REROLL button
code; `inpainting` delegates with the fixed VARY_REGION code and includes the
given mask and prompt in the button-press payload, both preserving the
message id. -/
theorem reroll_inpainting_buttons (b : BaseParams) (m mk0 : String)
    (pr : Option String) :
    (reroll (RerollParams.mk b m)).button = Button.REROLL
    ∧ (reroll (RerollParams.mk b m)).message_id = m
    ∧ (inpainting (InpaintingParams.mk b m mk0 pr)).button = Button.VARY_REGION
    ∧ (inpainting (InpaintingParams.mk b m mk0 pr)).message_id = m
    ∧ (inpainting (InpaintingParams.mk b m mk0 pr)).mask = some mk0
    ∧ (inpainting (InpaintingParams.mk b m mk0 pr)).prompt = pr
    ∧ ("mask", PyValue.str mk0) ∈
        objFields (buttonPressBody (inpainting (InpaintingParams.mk b m mk0 pr)))
    ∧ (∀ ps, pr = some ps → ("prompt", PyValue.str ps) ∈
        objFields (buttonPressBody (inpainting (InpaintingParams.mk b m mk0 pr)))) := by
  refine ⟨rfl, rfl, rfl, rfl, rfl, rfl, ?_, ?_⟩
  · have hmem : (("mask" : String), PyValue.str mk0) ∈
        buttonPressRecord (inpainting (InpaintingParams.mk b m mk0 pr)) := by
      simp [buttonPressRecord, baseRecord, inpainting, pyOfOptStr]
    have h := mem_convertFields hmem rfl
    have hs : snakeToCamel "mask" = "mask" := by decide
    rw [hs] at h
    simpa [buttonPressBody, convertParams, objFields] using h
  · intro ps hps
    subst hps
    have hmem : (("prompt" : String), PyValue.str ps) ∈
        buttonPressRecord (inpainting (InpaintingParams.mk b m mk0 (some ps))) := by
      simp [buttonPressRecord, baseRecord, inpainting, pyOfOptStr]
    have h := mem_convertFields hmem rfl
    have hs : snakeToCamel "prompt" = "prompt" := by decide
    rw [hs] at h
    simpa [buttonPressBody, convertParams, objFields] using h

/-- C7 witness: the inpainting request of the test suite carries the
VARY_REGION code, the given mask and the given prompt. -/
theorem reroll_inpainting_buttons_witness :
    (inpainting (InpaintingParams.mk (BaseParams.mk Option.none Option.none
        Option.none Option.none) "test_message_id" "base64_encoded_mask"
        (some "add a cat"))).button = Button.VARY_REGION
    ∧ ("mask", PyValue.str "base64_encoded_mask") ∈
        objFields (buttonPressBody (inpainting (InpaintingParams.mk
          (BaseParams.mk Option.none Option.none Option.none Option.none)
          "test_message_id" "base64_encoded_mask" (some "add a cat"))))
    ∧ ("prompt", PyValue.str "add a cat") ∈
        objFields (buttonPressBody (inpainting (InpaintingParams.mk
          (BaseParams.mk Option.none Option.none Option.none Option.none)
          "test_message_id" "base64_encoded_mask" (some "add a cat")))) := by
  have h := reroll_inpainting_buttons
    (BaseParams.mk Option.none Option.none Option.none Option.none)
    "test_message_id" "base64_encoded_mask" (some "add a cat")
  exact ⟨h.2.2.1, h.2.2.2.2.2.2.1, h.2.2.2.2.2.2.2 "add a cat" rfl⟩

/-- C5: on a non-success HTTP response the transport adapter fails with a
transport error whose message is resolved in order: the server-provided
`error` field of the JSON body when present, else the HTTP reason phrase,
else a generic failure message. -/
theorem post_request_error_resolution (resp : HttpResponse)
    (hnok : resp.ok = false) :
    handleResponse resp = Except.error (SdkError.transport (errorMessage resp))
    ∧ (∀ e, lookupField resp.json "error" = some (PyValue.str e) →
        errorMessage resp = e)
    ∧ ((∀ e, lookupField resp.json "error" ≠ some (PyValue.str e)) →
        resp.reason ≠ "" → errorMessage resp = resp.reason)
    ∧ ((∀ e, lookupField resp.json "error" ≠ some (PyValue.str e)) →
        resp.reason = "" → errorMessage resp = "Request failed") := by
  have key : (∀ e, lookupField resp.json "error" ≠ some (PyValue.str e)) →
      errorMessage resp = if resp.reason = "" then "Request failed"
        else resp.reason := by
    intro hno
    unfold errorMessage
    cases hlk : lookupField resp.json "error" with
    | none => rfl
    | some v =>
      cases v with
      | str e => exact absurd hlk (hno e)
      | none => rfl
      | bool b => rfl
      | int n => rfl
      | list l => rfl
      | obj o => rfl
  refine ⟨by simp [handleResponse, hnok], ?_, ?_, ?_⟩
  · intro e he
    simp [errorMessage, he]
  · intro hno hr
    rw [key hno, if_neg hr]
  · intro hno hr
    rw [key hno, if_pos hr]

/-- C5 witness: a non-success response with body containing an error field
yields a transport error whose message is exactly that field. -/
theorem post_request_error_resolution_witness :
    handleResponse (HttpResponse.mk false
        (PyValue.obj [("error", PyValue.str "bad prompt")]) "Bad Request")
      = Except.error (SdkError.transport "bad prompt") := by
  have h := post_request_error_resolution (HttpResponse.mk false
      (PyValue.obj [("error", PyValue.str "bad prompt")]) "Bad Request") rfl
  have he := h.2.1 "bad prompt" rfl
  rw [h.1, he]

/-- C8: every request carries the bearer authorization header, `imagine`
posts its normalized parameters to the imagine route, single-fetch issues a
GET on the message-fetch route, and a success response returns the parsed
JSON body verbatim, with no schema validation. -/
theorem requests_auth_routes (opts : ImagineProSDKOptions) (p : ImagineParams)
    (mid pr : String) (resp : HttpResponse) :
    (imagineRequest opts p).url = opts.base_url ++ "/api/v1/nova/imagine"
    ∧ (imagineRequest opts p).method = "POST"
    ∧ ("Authorization", "Bearer " ++ opts.api_key)
        ∈ (imagineRequest opts p).headers
    ∧ (fetchOnceRequest opts mid).url
        = opts.base_url ++ ("/api/v1/message/fetch/" ++ mid)
    ∧ (fetchOnceRequest opts mid).method = "GET"
    ∧ ("Authorization", "Bearer " ++ opts.api_key)
        ∈ (fetchOnceRequest opts mid).headers
    ∧ (imagineRequest opts p).body
        = some (convertParams (PyValue.obj (imagineRecord p)))
    ∧ (imagineRequest opts (ImagineParams.mk (BaseParams.mk Option.none
          Option.none Option.none Option.none) pr)).body
        = some (PyValue.obj [("prompt", PyValue.str pr)])
    ∧ (∀ path body2, ("Authorization", "Bearer " ++ opts.api_key)
        ∈ (postRequestOf opts path body2).headers)
    ∧ (∀ path, ("Authorization", "Bearer " ++ opts.api_key)
        ∈ (getRequestOf opts path).headers)
    ∧ (resp.ok = true → handleResponse resp = Except.ok resp.json) := by
  refine ⟨rfl, rfl, by simp [imagineRequest, postRequestOf, buildHeaders],
    rfl, rfl, by simp [fetchOnceRequest, getRequestOf, buildHeaders],
    rfl, ?_, fun path body2 => by simp [postRequestOf, buildHeaders],
    fun path => by simp [getRequestOf, buildHeaders],
    fun hok => by simp [handleResponse, hok]⟩
  show some (convertParams (PyValue.obj (imagineRecord (ImagineParams.mk
      (BaseParams.mk Option.none Option.none Option.none Option.none) pr))))
    = some (PyValue.obj [("prompt", PyValue.str pr)])
  have hk : snakeToCamel "prompt" = "prompt" := by decide
  simp [convertParams, imagineRecord, baseRecord, pyOfOptStr, pyOfOptInt,
    pyOfOptBool, convertFields, keepField, hk]

/-- C8 witness: a success response returns the parsed JSON body verbatim. -/
theorem requests_auth_routes_witness :
    handleResponse (HttpResponse.mk true doneResp "") = Except.ok doneResp :=
  (requests_auth_routes testOpts
      (ImagineParams.mk (BaseParams.mk Option.none Option.none Option.none
        Option.none) "a beautiful sunset") "test_message_id" "p"
      (HttpResponse.mk true doneResp "")).2.2.2.2.2.2.2.2.2.2 rfl

/-- C9: evaluation of the CPython dataclass layout rule on the declared
field layouts of types.py. `BaseParams` itself is well-formed, but every
request-parameter subclass adds a non-default required field after the four
defaulted fields inherited from `BaseParams`, so its class definition raises
TypeError before any instance can exist: no request-parameter value is ever
constructed, and the claimed construction-time validation of required fields
never takes place. -/
theorem request_params_class_definition_fails :
    dataclassLayoutOk baseParamsFields = true
    ∧ dataclassLayoutOk imagineParamsFields = false
    ∧ dataclassLayoutOk buttonPressParamsFields = false
    ∧ dataclassLayoutOk upscaleParamsFields = false
    ∧ dataclassLayoutOk variantParamsFields = false
    ∧ dataclassLayoutOk rerollParamsFields = false
    ∧ dataclassLayoutOk inpaintingParamsFields = false := by decide

/-- C1: for every trace of single-fetch results, polling returns the first
terminal (DONE or FAIL) result as a normal value, after exactly one
single-fetch per preceding non-terminal result plus one, and one interval
suspension per preceding non-terminal result, ignoring whatever would come
after; the deadline never fires while the clock readings stay below the
effective timeout. -/
theorem fetch_message_first_terminal (opts : ImagineProSDKOptions)
    (mid : String) (timeoutArg : Option Nat) (pre post : List PyValue)
    (r : PyValue) (times rest : List Nat) (start : Nat)
    (hpre : ∀ x ∈ pre, isTerminalResp x = false)
    (hr : isTerminalResp r = true)
    (hlen : times.length = pre.length)
    (htimes : ∀ t ∈ times, t - start < effectiveTimeout opts timeoutArg) :
    fetch_message opts mid timeoutArg (pre ++ r :: post) (times ++ rest) start
      = some (Except.ok (r, pre.length + 1, pre.length)) := by
  revert hpre hlen htimes
  induction pre generalizing times with
  | nil =>
    intro _ hlen _
    cases times with
    | nil => simp [fetch_message, fetchMessagePoll, hr]
    | cons t ts => simp at hlen
  | cons a as ih =>
    intro hpre hlen htimes
    cases times with
    | nil => simp at hlen
    | cons t ts =>
      have ha : isTerminalResp a = false := hpre a (List.mem_cons_self a as)
      have htl : t - start < effectiveTimeout opts timeoutArg :=
        htimes t (List.mem_cons_self t ts)
      have hrec := ih ts (fun x hx => hpre x (List.mem_cons_of_mem a hx))
        (by simpa using hlen) (fun u hu => htimes u (List.mem_cons_of_mem t hu))
      simp only [fetch_message] at hrec ⊢
      simp [fetchMessagePoll, ha, Nat.not_le.mpr htl, hrec]

/-- C1 witness: the trace PROCESSING, PROCESSING, DONE yields the DONE result
after exactly 3 single-fetch calls and 2 interval suspensions; a first-fetch
FAIL result is returned as a normal value after 1 fetch and 0 suspensions. -/
theorem fetch_message_first_terminal_witness :
    fetch_message testOpts "test_message_id" Option.none
      [processingResp, processingResp, doneResp] [1, 2] 0
      = some (Except.ok (doneResp, 3, 2))
    ∧ fetch_message testOpts "test_message_id" Option.none [failResp] [] 0
      = some (Except.ok (failResp, 1, 0)) :=
  ⟨fetch_message_first_terminal testOpts "test_message_id" Option.none
      [processingResp, processingResp] [] doneResp [1, 2] [] 0
      (by decide) (by decide) (by decide) (by decide),
   fetch_message_first_terminal testOpts "test_message_id" Option.none
      [] [] failResp [] [] 0
      (by decide) (by decide) (by decide) (by decide)⟩

/-- C2: when no single-fetch result in the trace is terminal and a deadline
check reads a clock whose elapsed value reaches the effective timeout (the
explicit argument when given, else the configured default), polling fails
with a timeout error carrying the message id and the elapsed duration, an
error kind distinct from a transport error. -/
theorem fetch_message_timeout_error (opts : ImagineProSDKOptions)
    (mid : String) (timeoutArg : Option Nat) (results : List PyValue)
    (timesPre : List Nat) (t : Nat) (rest : List Nat) (start : Nat)
    (hnt : ∀ x ∈ results, isTerminalResp x = false)
    (hlen : timesPre.length < results.length)
    (hpre : ∀ u ∈ timesPre, u - start < effectiveTimeout opts timeoutArg)
    (ht : effectiveTimeout opts timeoutArg ≤ t - start) :
    fetch_message opts mid timeoutArg results (timesPre ++ t :: rest) start
      = some (Except.error (SdkError.timeout mid (t - start)))
    ∧ (∀ msg, SdkError.timeout mid (t - start) ≠ SdkError.transport msg)
    ∧ (∀ x, effectiveTimeout opts (some x) = x)
    ∧ effectiveTimeout opts Option.none = opts.default_timeout := by
  refine ⟨?_, fun msg h => SdkError.noConfusion h, fun x => rfl, rfl⟩
  revert hnt hlen hpre
  induction timesPre generalizing results with
  | nil =>
    intro hnt hlen _
    cases results with
    | nil => simp at hlen
    | cons x xs =>
      have hx := hnt x (List.mem_cons_self x xs)
      simp [fetch_message, fetchMessagePoll, hx, ht]
  | cons u us ih =>
    intro hnt hlen hpre
    cases results with
    | nil => simp at hlen
    | cons x xs =>
      have hx := hnt x (List.mem_cons_self x xs)
      have hu : u - start < effectiveTimeout opts timeoutArg :=
        hpre u (List.mem_cons_self u us)
      have hrec := ih xs (fun y hy => hnt y (List.mem_cons_of_mem x hy))
        (by simpa using hlen) (fun v hv => hpre v (List.mem_cons_of_mem u hv))
      simp only [fetch_message] at hrec ⊢
      simp [fetchMessagePoll, hx, Nat.not_le.mpr hu, hrec]

/-- C2 witness: the timeout scenario of the test suite, with explicit timeout
30, start time 0 and clock readings 1 then 31 over an always-PROCESSING
trace, fails with a timeout error carrying the message id and the elapsed
duration 31. -/
theorem fetch_message_timeout_error_witness :
    fetch_message testOpts "test_message_id" (some 30)
      [processingResp, processingResp] [1, 31] 0
      = some (Except.error (SdkError.timeout "test_message_id" 31)) :=
  (fetch_message_timeout_error testOpts "test_message_id" (some 30)
      [processingResp, processingResp] [1] 31 [] 0
      (by decide) (by decide) (by decide) (by decide)).1

/-- C10: the deadline is evaluated only after a single-fetch has been
performed in the iteration: a trace admitting no single-fetch never produces
a timeout verdict, and a terminal first fetch is returned even when the
clock already exceeds the effective timeout (including an effective timeout
of zero). -/
theorem fetch_message_deadline_after_fetch (opts : ImagineProSDKOptions)
    (mid : String) (timeoutArg : Option Nat) (r : PyValue)
    (rs : List PyValue) (times : List Nat) (start : Nat)
    (hr : isTerminalResp r = true) :
    fetch_message opts mid timeoutArg (r :: rs) times start
      = some (Except.ok (r, 1, 0))
    ∧ (∀ ts : List Nat, fetch_message opts mid timeoutArg [] ts start
        = Option.none) := by
  constructor
  · simp [fetch_message, fetchMessagePoll, hr]
  · intro ts
    rfl

/-- C10 witness: with an explicit timeout of zero and a clock reading of 100
at start time 0, a terminal first fetch is still returned as the result, not
a timeout error. -/
theorem fetch_message_deadline_after_fetch_witness :
    fetch_message testOpts "test_message_id" (some 0) [doneResp] [100] 0
      = some (Except.ok (doneResp, 1, 0)) :=
  (fetch_message_deadline_after_fetch testOpts "test_message_id" (some 0)
      doneResp [] [100] 0 (by decide)).1
